import Mathlib

/-!
Shallow embedding of src/client/datascience/jupyter/kernels/kernelSelector.ts
(class KernelSelector) and verification of its specification claims.

Conventions of the embedding:
* JavaScript strings are Lean Strings; the JS truthiness test on a string is
  the test for non-emptiness.
* Optional / possibly-undefined values are Option; an Option String field
  whose raw JS value may be any falsy value uses none for the falsy case.
* Machine numbers are Int; NaN results of parsing are Option Int with none
  standing for NaN.
* Collaborator calls (interpreter service, kernel service, session manager,
  quick pick, Date.parse) are passed in as explicit arguments holding the
  value the collaborator would have produced.
-/

/-- Whitespace characters skipped by the leading-trim of the JS parseInt
builtin (the common ASCII ones; the kernel-selector call sites only ever see
digit strings). -/
def jsWhitespace (c : Char) : Bool :=
  c == ' ' || c == '\t' || c == '\n' || c == '\r' || c == '\x0b' || c == '\x0c'

/-- Value of the longest leading run of decimal digits, none when there is no
leading digit (the NaN case of parseInt). -/
def digitsValue (cs : List Char) : Option Nat :=
  let ds := cs.takeWhile (fun c => c.isDigit)
  if ds.isEmpty then none
  else some (ds.foldl (fun a c => a * 10 + (c.toNat - '0'.toNat)) 0)

/-- Model of the JS builtin parseInt(s, 10): trim leading whitespace, an
optional sign, then the longest run of digits; none models NaN. -/
def jsParseInt (s : String) : Option Int :=
  match s.data.dropWhile jsWhitespace with
  | [] => none
  | c :: rest =>
    if c = '-' then (digitsValue rest).map (fun n => -(n : Int))
    else if c = '+' then (digitsValue rest).map (fun n => (n : Int))
    else (digitsValue (c :: rest)).map (fun n => (n : Int))

/-- The run of digits that follows the first non-digit character of a string
once its leading digits are skipped (possibly empty). -/
def trailingDigitRun (cs : List Char) : List Char :=
  ((cs.dropWhile (fun c => c.isDigit)).dropWhile (fun c => !c.isDigit)).takeWhile
    (fun c => c.isDigit)

/-- The capture group of the first match of the regular expression
/\D+(\d+)/ against a string: the run of digits that follows the first
non-digit character that has a digit somewhere after it.  none models a null
result of RegExp.exec. -/
def extractTrailingDigits (cs : List Char) : Option (List Char) :=
  if (trailingDigitRun cs).isEmpty then none else some (trailingDigitRun cs)

/-- PythonVersion: only the major component is consulted by this module. -/
structure PyVersion where
  major : Int
deriving DecidableEq

/-- PythonInterpreter: the fields of the interpreter descriptor this module
reads (path, optional version, optional display name). -/
structure PythonInterpreter where
  path : String
  version : Option PyVersion
  displayName : Option String
deriving DecidableEq

/-- IJupyterKernelSpec: the fields of a kernel spec the selector reads. -/
structure IJupyterKernelSpec where
  name : String
  path : String
  display_name : String
deriving DecidableEq

/-- The kernelspec block of saved notebook metadata (declared preference). -/
structure MetadataKernelspec where
  display_name : String
deriving DecidableEq

/-- INotebookMetadataLive: notebook metadata optionally carrying the id of a
previously used live kernel session. -/
structure NotebookMetadataLive where
  id : Option String
  kernelspec : Option MetadataKernelspec
deriving DecidableEq

/-- The kernel object of a running remote session (session.kernel, accessed
as any): identity plus the raw last_activity and connections fields.  none
in the two raw fields models a falsy raw value. -/
structure RemoteKernel where
  id : String
  name : String
  last_activity : Option String
  connections : Option String
deriving DecidableEq

/-- A running remote session as returned by sessionManager.getRunningSessions. -/
structure LiveSession where
  kernel : RemoteKernel
deriving DecidableEq

/-- LiveKernelModel: the spread of the session kernel plus the computed
lastActivityTime, numberOfConnections and the owning session.  The two
computed fields are Option Int, none standing for an invalid date / NaN. -/
structure LiveKernelModel where
  id : String
  name : String
  last_activity : Option String
  connections : Option String
  lastActivityTime : Option Int
  numberOfConnections : Option Int
  session : LiveSession
deriving DecidableEq

/-- KernelSpecInterpreter: the selection result type of the module. -/
structure KernelSpecInterpreter where
  kernelSpec : Option IJupyterKernelSpec := none
  interpreter : Option PythonInterpreter := none
  kernelModel : Option LiveKernelModel := none
deriving DecidableEq

/-- Kernel.IKernelConnection as consumed by the ignore list handlers: a
stable id and a transient client id. -/
structure KernelConnection where
  id : String
  clientId : String
deriving DecidableEq

/-- The selection payload of one quick-pick suggestion item. -/
structure KernelSelection where
  interpreter : Option PythonInterpreter
  kernelSpec : Option IJupyterKernelSpec
  kernelModel : Option LiveKernelModel
deriving DecidableEq

/-- IKernelSpecQuickPickItem: a quick-pick item wrapping a selection. -/
structure KernelSelectionItem where
  selection : KernelSelection
deriving DecidableEq

/-- The connection type discriminator threaded through the selector. -/
inductive ConnType
  | raw
  | jupyter
  | noConnection
deriving DecidableEq

/-- The path contribution of the scoring loop of getKernelForRemoteConnection:
8 when the candidate path is a truthy non-empty byte-equal match of the
interpreter path. -/
def pathScore (it : Option PythonInterpreter) (spec : IJupyterKernelSpec) : Nat :=
  match it with
  | some ip => if spec.path ≠ "" ∧ spec.path.length > 0 ∧ spec.path = ip.path then 8 else 0
  | none => 0

/-- The version contribution of the scoring loop: 4 when the first digit of
the trailing digit run extracted from the candidate name by /\D+(\d+)/,
parsed with parseInt, is truthy and equals the interpreter major version. -/
def versionScore (it : Option PythonInterpreter) (spec : IJupyterKernelSpec) : Nat :=
  match it with
  | none => 0
  | some ip =>
    match ip.version with
    | none => 0
    | some v =>
      if spec.name = "" then 0
      else
        match extractTrailingDigits spec.name.data with
        | none => 0
        | some [] => 0
        | some (d :: _) =>
          match jsParseInt (String.mk [d]) with
          | none => 0
          | some nameVersion => if nameVersion ≠ 0 ∧ nameVersion = v.major then 4 else 0

/-- The display-name contribution of the scoring loop: 16 when the candidate
display name is truthy and equals the declared notebook kernelspec display
name. -/
def displayScore (md : Option NotebookMetadataLive) (spec : IJupyterKernelSpec) : Nat :=
  match md with
  | some m =>
    match m.kernelspec with
    | some ks => if spec.display_name ≠ "" ∧ spec.display_name = ks.display_name then 16 else 0
    | none => 0
  | none => 0

/-- The score a candidate earns in one iteration of the scoring loop: the
three contributions accumulated into the local score variable. -/
def specScore (it : Option PythonInterpreter) (md : Option NotebookMetadataLive)
    (spec : IJupyterKernelSpec) : Nat :=
  pathScore it spec + versionScore it spec + displayScore md spec

/-- One iteration of the best-match loop: replace the running best exactly
when the candidate score strictly exceeds the running best score. -/
def stepF {α : Type} (f : α → Nat) (acc : Option α × Int) (x : α) : Option α × Int :=
  if (f x : Int) > acc.2 then (some x, (f x : Int)) else acc

/-- The best-match loop: fold over the candidates starting from no match and
the sentinel score -1. -/
def selectHighest {α : Type} (f : α → Nat) (l : List α) : Option α × Int :=
  l.foldl (stepF f) (none, -1)

/-- The matching step of getKernelForRemoteConnection: the best-match loop
run with the candidate score of the given interpreter and metadata. -/
def findBestMatch (it : Option PythonInterpreter) (md : Option NotebookMetadataLive)
    (specs : List IJupyterKernelSpec) : Option IJupyterKernelSpec × Int :=
  selectHighest (specScore it md) specs

/-- Construction of the LiveKernelModel returned for a running session:
spread of the session kernel, lastActivityTime from Date.parse of the raw
last_activity (the current time when that is falsy), numberOfConnections
from parseInt of the raw connections (0 when that is falsy), and the owning
session.  dp is the Date.parse builtin, now the current time. -/
def mkLiveKernelModel (sess : LiveSession) (now : Int) (dp : String → Option Int) :
    LiveKernelModel :=
  { id := sess.kernel.id
    name := sess.kernel.name
    last_activity := sess.kernel.last_activity
    connections := sess.kernel.connections
    lastActivityTime :=
      match sess.kernel.last_activity with
      | some s => dp s
      | none => some now
    numberOfConnections :=
      match sess.kernel.connections with
      | some s => jsParseInt s
      | none => some 0
    session := sess }

/-- getKernelForRemoteConnection after the three concurrent fetches have
produced the active interpreter, the remote kernel spec list and the
(optional) running session list: first the live-session lookup keyed by the
truthy metadata id, then the scoring loop over the spec list. -/
def getKernelForRemoteConnection (it : Option PythonInterpreter)
    (specs : List IJupyterKernelSpec) (sessions : Option (List LiveSession))
    (md : Option NotebookMetadataLive) (now : Int) (dp : String → Option Int) :
    KernelSpecInterpreter :=
  let metadataId : Option String :=
    match md with
    | some m =>
      match m.id with
      | some i => if i = "" then none else some i
      | none => none
    | none => none
  let liveSession : Option LiveSession :=
    match metadataId with
    | some i =>
      match sessions with
      | some sl => sl.find? (fun s => s.kernel.id == i)
      | none => none
    | none => none
  match liveSession with
  | some sess =>
    { kernelModel := some (mkLiveKernelModel sess now dp), interpreter := it, kernelSpec := none }
  | none =>
    { kernelSpec := (findBestMatch it md specs).1, interpreter := it, kernelModel := none }

/-- The live-kernel identity a suggestion item is filtered by:
item.selection.kernelModel?.id with the empty string for a missing model. -/
def suggestionId (item : KernelSelectionItem) : String :=
  (item.selection.kernelModel.map (fun m => m.id)).getD ""

/-- The suggestion filter applied by selectLocalKernel and selectRemoteKernel
before delegating to selectKernel: drop the items whose identity is in the
ignore list. -/
def filterSuggestions (hide : Finset String) (suggestions : List KernelSelectionItem) :
    List KernelSelectionItem :=
  suggestions.filter (fun item => decide (suggestionId item ∉ hide))

/-- addKernelToIgnoreList: add the kernel id and then its client id to the
set of kernel ids to hide. -/
def addKernelToIgnoreList (s : Finset String) (k : KernelConnection) : Finset String :=
  insert k.clientId (insert k.id s)

/-- removeKernelFromIgnoreList: delete the kernel id and then its client id
from the set of kernel ids to hide. -/
def removeKernelFromIgnoreList (s : Finset String) (k : KernelConnection) : Finset String :=
  (s.erase k.id).erase k.clientId

/-- useInterpreterAsKernel with the collaborator responses passed in: the
dependency-check answer, the result of findMatchingKernelSpec, and the result
of registerKernel (an Except because registration may fail).  The second
component of the result counts how many times registerKernel was invoked. -/
def useInterpreterAsKernel (depsInstalled : Bool)
    (matchingSpec : Option IJupyterKernelSpec)
    (registerResult : Except String IJupyterKernelSpec)
    (interp : PythonInterpreter) :
    Except String KernelSpecInterpreter × Nat :=
  let register : Except String KernelSpecInterpreter × Nat :=
    match registerResult with
    | Except.error e => (Except.error e, 1)
    | Except.ok ks =>
      (Except.ok { kernelSpec := some ks, interpreter := some interp, kernelModel := none }, 1)
  if depsInstalled then
    match matchingSpec with
    | some ks =>
      (Except.ok { kernelSpec := some ks, interpreter := some interp, kernelModel := none }, 0)
    | none => register
  else register

/-- selectKernel after the quick pick has resolved: pick is the selection the
user made (none when the pick was dismissed), uiak the result
useInterpreterAsKernel would produce for an interpreter, defaultSpec the
createDefaultKernelSpec helper, findMatchModel / findMatchSpec the
findMatchingInterpreter collaborator for a live model / kernel spec. -/
def selectKernel (type : ConnType) (pick : Option KernelSelection)
    (uiak : PythonInterpreter → KernelSpecInterpreter)
    (defaultSpec : Option String → IJupyterKernelSpec)
    (findMatchModel : LiveKernelModel → Option PythonInterpreter)
    (findMatchSpec : IJupyterKernelSpec → Option PythonInterpreter) :
    KernelSpecInterpreter :=
  match pick with
  | none => {}
  | some sel =>
    match sel.interpreter, type with
    | some it, ConnType.jupyter => uiak it
    | some it, ConnType.raw =>
      { kernelSpec := some (defaultSpec it.displayName), interpreter := some it }
    | _, _ =>
      match sel.kernelModel with
      | some km =>
        { kernelSpec := sel.kernelSpec, interpreter := findMatchModel km,
          kernelModel := some km }
      | none =>
        match sel.kernelSpec with
        | some ks => { kernelSpec := some ks, interpreter := findMatchSpec ks }
        | none => {}

/-- Elements of a list decomposed around a maximal element are all bounded by
the score of that element. -/
lemma le_of_decomp {α : Type} (f : α → Nat) {l l1 l2 : List α} {c : α}
    (hdec : l = l1 ++ c :: l2) (h1 : ∀ y ∈ l1, f y < f c) (h2 : ∀ y ∈ l2, f y ≤ f c) :
    ∀ y ∈ l, f y ≤ f c := by
  intro y hy
  rw [hdec] at hy
  rcases List.mem_append.1 hy with h | h
  · exact le_of_lt (h1 y h)
  · rcases List.mem_cons.1 h with rfl | h
    · exact le_refl _
    · exact h2 y h

/-- Invariant of the best-match fold started at a concrete best element: the
fold returns the earliest element of maximal score, witnessed by a
decomposition with strictly smaller scores before it and no larger score
after it. -/
lemma foldl_stepF_spec {α : Type} (f : α → Nat) :
    ∀ (xs : List α) (b : α),
      ∃ c l1 l2,
        List.foldl (stepF f) (some b, (f b : Int)) xs = (some c, (f c : Int)) ∧
        b :: xs = l1 ++ c :: l2 ∧
        (∀ y ∈ l1, f y < f c) ∧ (∀ y ∈ l2, f y ≤ f c) := by
  intro xs
  induction xs with
  | nil =>
    intro b
    exact ⟨b, [], [], rfl, rfl, by simp, by simp⟩
  | cons x xs ih =>
    intro b
    rw [List.foldl_cons]
    by_cases h : f b < f x
    · have hstep : stepF f (some b, (f b : Int)) x = (some x, (f x : Int)) := by
        simp only [stepF]
        rw [if_pos (by exact_mod_cast h)]
      rw [hstep]
      obtain ⟨c, l1, l2, heq, hdec, h1, h2⟩ := ih x
      refine ⟨c, b :: l1, l2, heq, by rw [List.cons_append, ← hdec], ?_, h2⟩
      intro y hy
      rcases List.mem_cons.1 hy with rfl | hy2
      · have hx : f x ≤ f c := le_of_decomp f hdec h1 h2 x (List.mem_cons_self _ _)
        exact lt_of_lt_of_le h hx
      · exact h1 y hy2
    · have hstep : stepF f (some b, (f b : Int)) x = (some b, (f b : Int)) := by
        simp only [stepF]
        rw [if_neg (by exact_mod_cast h)]
      rw [hstep]
      obtain ⟨c, l1, l2, heq, hdec, h1, h2⟩ := ih b
      push_neg at h
      cases l1 with
      | nil =>
        simp only [List.nil_append, List.cons.injEq] at hdec
        obtain ⟨rfl, rfl⟩ := hdec
        refine ⟨b, [], x :: xs, heq, by simp, by simp, ?_⟩
        intro y hy
        rcases List.mem_cons.1 hy with rfl | hy2
        · exact h
        · exact h2 y hy2
      | cons a l1t =>
        simp only [List.cons_append, List.cons.injEq] at hdec
        obtain ⟨rfl, hxs⟩ := hdec
        have hbc : f b < f c := h1 b (by simp)
        refine ⟨c, b :: x :: l1t, l2, heq, by simp [hxs], ?_, h2⟩
        intro y hy
        rcases List.mem_cons.1 hy with rfl | hy2
        · exact hbc
        rcases List.mem_cons.1 hy2 with rfl | hy3
        · exact lt_of_le_of_lt h hbc
        · exact h1 y (by simp [hy3])

/-- The best-match loop on a non-empty candidate list returns the earliest
candidate of maximal score together with that score. -/
lemma selectHighest_spec {α : Type} (f : α → Nat) (l : List α) (hne : l ≠ []) :
    ∃ c l1 l2, selectHighest f l = (some c, (f c : Int)) ∧ l = l1 ++ c :: l2 ∧
      (∀ y ∈ l1, f y < f c) ∧ (∀ y ∈ l2, f y ≤ f c) := by
  cases l with
  | nil => exact absurd rfl hne
  | cons x xs =>
    unfold selectHighest
    rw [List.foldl_cons]
    have hstep : stepF f (none, -1) x = (some x, (f x : Int)) := by
      simp only [stepF]
      rw [if_pos]
      have h0 : (0 : Int) ≤ (f x : Int) := Int.ofNat_nonneg _
      omega
    rw [hstep]
    exact foldl_stepF_spec f xs x

/-- The best-match fold keeps a zero-score accumulator unchanged over a list
of zero-score candidates. -/
lemma foldl_stepF_zero {α : Type} (f : α → Nat) :
    ∀ (t : List α) (b : α), (∀ s ∈ t, f s = 0) →
      List.foldl (stepF f) (some b, 0) t = (some b, 0) := by
  intro t
  induction t with
  | nil => intro b _; rfl
  | cons s t ih =>
    intro b hall
    rw [List.foldl_cons]
    have hs : f s = 0 := hall s (by simp)
    have hstep : stepF f (some b, 0) s = (some b, 0) := by
      simp only [stepF, hs]
      rw [if_neg (by omega)]
    rw [hstep]
    exact ih b (fun x hx => hall x (by simp [hx]))

/-- A list containing an element satisfying a predicate has a first such
element found by find?. -/
lemma exists_find?_eq_some {α : Type} (p : α → Bool) (l : List α)
    (h : ∃ x ∈ l, p x = true) :
    ∃ y, l.find? p = some y ∧ p y = true := by
  induction l with
  | nil => simp at h
  | cons a t ih =>
    by_cases ha : p a = true
    · exact ⟨a, List.find?_cons_of_pos _ ha, ha⟩
    · obtain ⟨x, hx, hpx⟩ := h
      rcases List.mem_cons.1 hx with rfl | hx2
      · exact absurd hpx ha
      · obtain ⟨y, hy, hpy⟩ := ih ⟨x, hx2, hpx⟩
        refine ⟨y, ?_, hpy⟩
        rw [List.find?_cons_of_neg _ (by simpa using ha)]
        exact hy

/-- A digit character is none of the characters the parseInt front end
strips or interprets as a sign. -/
lemma isDigit_not_special {d : Char} (hd : d.isDigit = true) :
    jsWhitespace d = false ∧ d ≠ '-' ∧ d ≠ '+' := by
  refine ⟨?_, ?_, ?_⟩
  · unfold jsWhitespace
    have h1 : (d == ' ') = false := by
      refine beq_eq_false_iff_ne.2 ?_
      intro h; subst h; exact absurd hd (by decide)
    have h2 : (d == '\t') = false := by
      refine beq_eq_false_iff_ne.2 ?_
      intro h; subst h; exact absurd hd (by decide)
    have h3 : (d == '\n') = false := by
      refine beq_eq_false_iff_ne.2 ?_
      intro h; subst h; exact absurd hd (by decide)
    have h4 : (d == '\r') = false := by
      refine beq_eq_false_iff_ne.2 ?_
      intro h; subst h; exact absurd hd (by decide)
    have h5 : (d == '\x0b') = false := by
      refine beq_eq_false_iff_ne.2 ?_
      intro h; subst h; exact absurd hd (by decide)
    have h6 : (d == '\x0c') = false := by
      refine beq_eq_false_iff_ne.2 ?_
      intro h; subst h; exact absurd hd (by decide)
    simp [h1, h2, h3, h4, h5, h6]
  · intro h; subst h; exact absurd hd (by decide)
  · intro h; subst h; exact absurd hd (by decide)

/-- parseInt applied to a one-character digit string yields the value of the
digit. -/
lemma jsParseInt_digit (d : Char) (hd : d.isDigit = true) :
    jsParseInt (String.mk [d]) = some ((d.toNat - '0'.toNat : Nat) : Int) := by
  obtain ⟨hws, hminus, hplus⟩ := isDigit_not_special hd
  unfold jsParseInt
  have hdata : (String.mk [d]).data = [d] := rfl
  rw [hdata]
  have hdrop : List.dropWhile jsWhitespace [d] = [d] := by
    simp [List.dropWhile, hws]
  rw [hdrop]
  simp only [if_neg hminus, if_neg hplus]
  unfold digitsValue
  simp [List.takeWhile, hd]

/-- The head of a successful trailing-digit extraction is a digit. -/
lemma extract_head_isDigit {cs : List Char} {d : Char} {ds : List Char}
    (h : extractTrailingDigits cs = some (d :: ds)) : d.isDigit = true := by
  unfold extractTrailingDigits at h
  split_ifs at h with hempty
  injection h with h2
  have hmem : d ∈ trailingDigitRun cs := by
    rw [h2]; simp
  exact List.mem_takeWhile_imp hmem

/-- C3: the matcher's score is additive with independent contributions of
exactly +8 for the byte-equal non-empty path match, +4 for the version-digit
match and +16 for the non-empty exact display-name match (all three together
score 28), and the matching step returns the earliest candidate of strictly
highest score: the candidates before the returned one score strictly lower
and the ones after it score no higher. -/
theorem c3_scoring_matcher :
    (∀ it md spec, specScore it md spec
        = pathScore it spec + versionScore it spec + displayScore md spec) ∧
    (∀ it md spec, pathScore it spec = 8 → versionScore it spec = 4 →
        displayScore md spec = 16 → specScore it md spec = 28) ∧
    (∀ it md (specs : List IJupyterKernelSpec), specs ≠ [] →
        ∃ c l1 l2, findBestMatch it md specs = (some c, (specScore it md c : Int)) ∧
          specs = l1 ++ c :: l2 ∧
          (∀ y ∈ l1, specScore it md y < specScore it md c) ∧
          (∀ y ∈ l2, specScore it md y ≤ specScore it md c)) := by
  refine ⟨fun it md spec => rfl, ?_, ?_⟩
  · intro it md spec h1 h2 h3
    simp [specScore, h1, h2, h3]
  · intro it md specs hne
    exact selectHighest_spec (specScore it md) specs hne

/-- Witness for C3 at the scenario of the spec: candidate A (path match plus
version match) scores 12, candidate B (display-name match) scores 16, and
the matcher returns B. -/
theorem c3_scoring_matcher_witness :
    ([(⟨"python38", "/usr/bin/python3.9", "A"⟩ : IJupyterKernelSpec), ⟨"k", "", "Py3"⟩]
        ≠ ([] : List IJupyterKernelSpec)) ∧
    (∃ c l1 l2,
      findBestMatch (some ⟨"/usr/bin/python3.9", some ⟨3⟩, none⟩) (some ⟨none, some ⟨"Py3"⟩⟩)
          [⟨"python38", "/usr/bin/python3.9", "A"⟩, ⟨"k", "", "Py3"⟩]
        = (some c, (specScore (some ⟨"/usr/bin/python3.9", some ⟨3⟩, none⟩)
            (some ⟨none, some ⟨"Py3"⟩⟩) c : Int)) ∧
      [(⟨"python38", "/usr/bin/python3.9", "A"⟩ : IJupyterKernelSpec), ⟨"k", "", "Py3"⟩]
        = l1 ++ c :: l2 ∧
      (∀ y ∈ l1, specScore (some ⟨"/usr/bin/python3.9", some ⟨3⟩, none⟩)
          (some ⟨none, some ⟨"Py3"⟩⟩) y < specScore (some ⟨"/usr/bin/python3.9", some ⟨3⟩, none⟩)
          (some ⟨none, some ⟨"Py3"⟩⟩) c) ∧
      (∀ y ∈ l2, specScore (some ⟨"/usr/bin/python3.9", some ⟨3⟩, none⟩)
          (some ⟨none, some ⟨"Py3"⟩⟩) y ≤ specScore (some ⟨"/usr/bin/python3.9", some ⟨3⟩, none⟩)
          (some ⟨none, some ⟨"Py3"⟩⟩) c)) :=
  ⟨by decide,
    c3_scoring_matcher.2.2 (some ⟨"/usr/bin/python3.9", some ⟨3⟩, none⟩)
      (some ⟨none, some ⟨"Py3"⟩⟩)
      [⟨"python38", "/usr/bin/python3.9", "A"⟩, ⟨"k", "", "Py3"⟩] (by decide)⟩

/-- Counterexample to C2: a non-empty candidate list in which every candidate
scores 0 does not leave the loop at (none, -1); the first candidate wins with
score 0, because 0 exceeds the -1 sentinel. -/
theorem c2_counterexample :
    specScore none none ⟨"somekernel", "", ""⟩ = 0 ∧
    findBestMatch none none [⟨"somekernel", "", ""⟩]
      = (some ⟨"somekernel", "", ""⟩, 0) ∧
    (some (⟨"somekernel", "", ""⟩ : IJupyterKernelSpec), (0 : Int)) ≠ (none, -1) := by
  decide

/-- C2 amended: the matching step returns none with the -1 sentinel only for
an empty candidate list; on a non-empty list in which every candidate scores
0 it returns the first candidate with score 0. -/
theorem c2_amended (it : Option PythonInterpreter) (md : Option NotebookMetadataLive) :
    findBestMatch it md [] = (none, -1) ∧
    ∀ h t, (∀ s ∈ h :: t, specScore it md s = 0) →
      findBestMatch it md (h :: t) = (some h, 0) := by
  constructor
  · rfl
  · intro h t hall
    unfold findBestMatch selectHighest
    rw [List.foldl_cons]
    have hh : specScore it md h = 0 := hall h (by simp)
    have hstep : stepF (specScore it md) (none, -1) h = (some h, 0) := by
      simp only [stepF, hh, Nat.cast_zero]
      rw [if_pos (by omega)]
    rw [hstep]
    exact foldl_stepF_zero _ t h (fun s hs => hall s (by simp [hs]))

/-- Witness for the amended C2: a two-candidate all-zero list yields the
first candidate with score 0. -/
theorem c2_amended_witness :
    (∀ s ∈ [(⟨"k1", "", ""⟩ : IJupyterKernelSpec), ⟨"k2", "", ""⟩],
        specScore none none s = 0) ∧
    findBestMatch none none [⟨"k1", "", ""⟩, ⟨"k2", "", ""⟩] = (some ⟨"k1", "", ""⟩, 0) :=
  ⟨by decide, (c2_amended none none).2 ⟨"k1", "", ""⟩ [⟨"k2", "", ""⟩] (by decide)⟩

/-- C10: a candidate whose extracted trailing digit run begins with the digit
0 never earns the +4 version contribution, for every interpreter, including
one whose major version is 0: the parsed first digit is tested for
truthiness before the comparison. -/
theorem c10_zero_first_digit_no_version_score :
    ∀ (it : Option PythonInterpreter) (spec : IJupyterKernelSpec) (ds : List Char),
      extractTrailingDigits spec.name.data = some ('0' :: ds) →
      versionScore it spec = 0 := by
  intro it spec ds hx
  cases it with
  | none => rfl
  | some ip =>
    cases hv : ip.version with
    | none => simp [versionScore, hv]
    | some v =>
      by_cases hname : spec.name = ""
      · simp [versionScore, hv, hname]
      · have hparse : jsParseInt (String.mk ['0']) = some 0 := by decide
        simp [versionScore, hv, hname, hx, hparse]

/-- Witness for C10: the candidate named python0 gets no version contribution
even from an interpreter of major version 0. -/
theorem c10_zero_first_digit_no_version_score_witness :
    extractTrailingDigits (⟨"python0", "", ""⟩ : IJupyterKernelSpec).name.data
        = some ('0' :: []) ∧
    versionScore (some ⟨"/x", some ⟨0⟩, none⟩) ⟨"python0", "", ""⟩ = 0 :=
  ⟨by decide,
    c10_zero_first_digit_no_version_score (some ⟨"/x", some ⟨0⟩, none⟩)
      ⟨"python0", "", ""⟩ [] (by decide)⟩

/-- Counterexample to C4: for the candidate named python0 and an interpreter
of major version 0 the first extracted digit read as an integer equals the
major version, yet the +4 contribution is not awarded (the truthiness test
on the parsed digit rejects 0). -/
theorem c4_counterexample :
    extractTrailingDigits (⟨"python0", "", ""⟩ : IJupyterKernelSpec).name.data
        = some ['0'] ∧
    (('0'.toNat - '0'.toNat : Nat) : Int)
        = (⟨0⟩ : PyVersion).major ∧
    versionScore (some ⟨"/usr/bin/python", some ⟨0⟩, none⟩) ⟨"python0", "", ""⟩ = 0 ∧
    versionScore (some ⟨"/usr/bin/python", some ⟨0⟩, none⟩) ⟨"python0", "", ""⟩ ≠ 4 := by
  decide

/-- C4 amended: when the interpreter version is defined and the candidate
name matches the non-digits-then-digits pattern, the +4 contribution is
awarded if and only if the first digit of the extracted run, read as a
one-digit integer, is nonzero and equals the interpreter major version. -/
theorem c4_amended :
    ∀ (ip : PythonInterpreter) (v : PyVersion) (spec : IJupyterKernelSpec)
      (d : Char) (ds : List Char),
      ip.version = some v →
      extractTrailingDigits spec.name.data = some (d :: ds) →
      (versionScore (some ip) spec = 4 ↔
        (((d.toNat - '0'.toNat : Nat) : Int) ≠ 0 ∧
          ((d.toNat - '0'.toNat : Nat) : Int) = v.major)) := by
  intro ip v spec d ds hv hx
  have hname : spec.name ≠ "" := by
    intro h0
    rw [h0] at hx
    have hnil : extractTrailingDigits ("" : String).data = none := by decide
    rw [hnil] at hx
    exact Option.noConfusion hx
  have hd : d.isDigit = true := extract_head_isDigit hx
  have hparse := jsParseInt_digit d hd
  by_cases hcond : ((d.toNat - '0'.toNat : Nat) : Int) ≠ 0 ∧
      ((d.toNat - '0'.toNat : Nat) : Int) = v.major
  · simp [versionScore, hv, hname, hx, hparse, hcond]
  · simp only [versionScore, hv, hname, hx, hparse]
    simp [hcond]

/-- Witness for the amended C4: python38 against major version 3 earns the
+4 contribution (first digit 3, nonzero, equal to the major). -/
theorem c4_amended_witness :
    ((⟨"/usr/bin/python3.9", some ⟨3⟩, none⟩ : PythonInterpreter).version = some ⟨3⟩) ∧
    (extractTrailingDigits
        (⟨"python38", "/usr/bin/python3.9", "A"⟩ : IJupyterKernelSpec).name.data
      = some ('3' :: ['8'])) ∧
    (versionScore (some ⟨"/usr/bin/python3.9", some ⟨3⟩, none⟩)
        ⟨"python38", "/usr/bin/python3.9", "A"⟩ = 4 ↔
      ((('3'.toNat - '0'.toNat : Nat) : Int) ≠ 0 ∧
        (('3'.toNat - '0'.toNat : Nat) : Int) = (⟨3⟩ : PyVersion).major)) :=
  ⟨rfl, by decide,
    c4_amended ⟨"/usr/bin/python3.9", some ⟨3⟩, none⟩ ⟨3⟩
      ⟨"python38", "/usr/bin/python3.9", "A"⟩ '3' ['8'] rfl (by decide)⟩

/-- C1: when the metadata carries a truthy live-kernel id and the running
session list contains a session with that kernel id, getKernelForRemoteConnection
returns that session's kernel wrapped as a LiveKernelModel plus the active
interpreter and no kernel spec, for every spec list, so the scoring loop is
never applied even when a spec would score higher than zero. -/
theorem c1_live_session_priority :
    ∀ (it : Option PythonInterpreter) (specs : List IJupyterKernelSpec)
      (sl : List LiveSession) (m : NotebookMetadataLive) (i : String)
      (now : Int) (dp : String → Option Int),
      m.id = some i → i ≠ "" →
      (∃ s ∈ sl, s.kernel.id = i) →
      ∃ sess, sl.find? (fun s => s.kernel.id == i) = some sess ∧ sess.kernel.id = i ∧
        getKernelForRemoteConnection it specs (some sl) (some m) now dp =
          { kernelSpec := none, interpreter := it,
            kernelModel := some (mkLiveKernelModel sess now dp) } := by
  intro it specs sl m i now dp hid hne hex
  obtain ⟨sess, hfind, hp⟩ := exists_find?_eq_some (fun s => s.kernel.id == i) sl (by
    obtain ⟨s, hs, hsi⟩ := hex
    exact ⟨s, hs, by simp [hsi]⟩)
  refine ⟨sess, hfind, by simpa using hp, ?_⟩
  simp [getKernelForRemoteConnection, hid, hne, hfind]

/-- Witness for C1: a metadata id matching the only running session returns
the live kernel even though the spec list holds a candidate scoring 16. -/
theorem c1_live_session_priority_witness :
    ((⟨some "kid", some ⟨"Py3"⟩⟩ : NotebookMetadataLive).id = some "kid") ∧
    ("kid" ≠ "") ∧
    (∃ s ∈ [(⟨⟨"kid", "kn", none, none⟩⟩ : LiveSession)], s.kernel.id = "kid") ∧
    (∃ sess,
      [(⟨⟨"kid", "kn", none, none⟩⟩ : LiveSession)].find?
          (fun s => s.kernel.id == "kid") = some sess ∧
      sess.kernel.id = "kid" ∧
      getKernelForRemoteConnection none [⟨"x", "", "Py3"⟩]
          (some [⟨⟨"kid", "kn", none, none⟩⟩]) (some ⟨some "kid", some ⟨"Py3"⟩⟩) 7
          (fun _ => none) =
        { kernelSpec := none, interpreter := none,
          kernelModel := some (mkLiveKernelModel sess 7 (fun _ => none)) }) :=
  ⟨rfl, by decide, by decide,
    c1_live_session_priority none [⟨"x", "", "Py3"⟩] [⟨⟨"kid", "kn", none, none⟩⟩]
      ⟨some "kid", some ⟨"Py3"⟩⟩ "kid" 7 (fun _ => none) rfl (by decide) (by decide)⟩

/-- Counterexample to C9: a live kernel reporting the unparsable connection
count abc is attached with numberOfConnections NaN (modeled none), not with
the claimed default 0. -/
theorem c9_counterexample :
    ((getKernelForRemoteConnection none [] (some [⟨⟨"kid", "kn", none, some "abc"⟩⟩])
          (some ⟨some "kid", none⟩) 0 (fun _ => none)).kernelModel.map
        (fun km => km.numberOfConnections)) = some none ∧
    (none : Option Int) ≠ some 0 := by
  constructor
  · rfl
  · decide

/-- C9 amended: the attached lastActivityTime is Date.parse of the reported
timestamp and defaults to the current time when the timestamp is absent; the
attached numberOfConnections is parseInt of the reported value and defaults
to 0 only when the value is absent — a present but unparsable value parses
to NaN (modeled none), not to 0, as jsParseInt of abc shows. -/
theorem c9_amended :
    ∀ (it : Option PythonInterpreter) (specs : List IJupyterKernelSpec)
      (sl : List LiveSession) (m : NotebookMetadataLive) (i : String)
      (now : Int) (dp : String → Option Int) (sess : LiveSession),
      m.id = some i → i ≠ "" →
      sl.find? (fun s => s.kernel.id == i) = some sess →
      ∃ km, (getKernelForRemoteConnection it specs (some sl) (some m) now dp).kernelModel
          = some km ∧
        (sess.kernel.last_activity = none → km.lastActivityTime = some now) ∧
        (∀ ts, sess.kernel.last_activity = some ts → km.lastActivityTime = dp ts) ∧
        (sess.kernel.connections = none → km.numberOfConnections = some 0) ∧
        (∀ c, sess.kernel.connections = some c → km.numberOfConnections = jsParseInt c) ∧
        jsParseInt "abc" = none := by
  intro it specs sl m i now dp sess hid hne hfind
  refine ⟨mkLiveKernelModel sess now dp, ?_, ?_, ?_, ?_, ?_, by decide⟩
  · simp [getKernelForRemoteConnection, hid, hne, hfind]
  · intro h; simp [mkLiveKernelModel, h]
  · intro ts h; simp [mkLiveKernelModel, h]
  · intro h; simp [mkLiveKernelModel, h]
  · intro c h; simp [mkLiveKernelModel, h]

/-- Witness for the amended C9: a live kernel reporting timestamp t and
connection count 5 is attached with the parsed values. -/
theorem c9_amended_witness :
    ((⟨some "kid", none⟩ : NotebookMetadataLive).id = some "kid") ∧ ("kid" ≠ "") ∧
    ([(⟨⟨"kid", "kn", some "t", some "5"⟩⟩ : LiveSession)].find?
        (fun s => s.kernel.id == "kid") = some ⟨⟨"kid", "kn", some "t", some "5"⟩⟩) ∧
    (∃ km, (getKernelForRemoteConnection none [] (some [⟨⟨"kid", "kn", some "t", some "5"⟩⟩])
          (some ⟨some "kid", none⟩) 7 (fun _ => some 11)).kernelModel = some km ∧
      ((⟨⟨"kid", "kn", some "t", some "5"⟩⟩ : LiveSession).kernel.last_activity = none →
        km.lastActivityTime = some 7) ∧
      (∀ ts, (⟨⟨"kid", "kn", some "t", some "5"⟩⟩ : LiveSession).kernel.last_activity
          = some ts → km.lastActivityTime = (fun _ => some 11) ts) ∧
      ((⟨⟨"kid", "kn", some "t", some "5"⟩⟩ : LiveSession).kernel.connections = none →
        km.numberOfConnections = some 0) ∧
      (∀ c, (⟨⟨"kid", "kn", some "t", some "5"⟩⟩ : LiveSession).kernel.connections
          = some c → km.numberOfConnections = jsParseInt c) ∧
      jsParseInt "abc" = none) :=
  ⟨rfl, by decide, by decide,
    c9_amended none [] [⟨⟨"kid", "kn", some "t", some "5"⟩⟩] ⟨some "kid", none⟩ "kid" 7
      (fun _ => some 11) ⟨⟨"kid", "kn", some "t", some "5"⟩⟩ rfl (by decide) (by decide)⟩

/-- C5: the suggestion filter used by selectLocalKernel and selectRemoteKernel
returns an order-preserving subsequence of the input containing no candidate
whose live-kernel identity (the empty string when the candidate carries no
live-kernel model) is in the ignore list, and keeps every candidate whose
identity is not in the ignore list. -/
theorem c5_suggestion_filter :
    ∀ (hide : Finset String) (l : List KernelSelectionItem),
      List.Sublist (filterSuggestions hide l) l ∧
      (∀ item ∈ filterSuggestions hide l, suggestionId item ∉ hide) ∧
      (∀ item ∈ l, suggestionId item ∉ hide → item ∈ filterSuggestions hide l) := by
  intro hide l
  refine ⟨?_, ?_, ?_⟩
  · unfold filterSuggestions
    exact List.filter_sublist l
  · intro item hitem
    have h := (List.mem_filter.1 hitem).2
    simpa using h
  · intro item hitem hnot
    exact List.mem_filter.2 ⟨hitem, by simpa using hnot⟩

/-- A suggestion item whose live kernel has id abc. -/
def itemAbc : KernelSelectionItem :=
  ⟨⟨none, none, some ⟨"abc", "", none, none, none, none, ⟨⟨"", "", none, none⟩⟩⟩⟩⟩

/-- A suggestion item whose live kernel has id xyz. -/
def itemXyz : KernelSelectionItem :=
  ⟨⟨none, none, some ⟨"xyz", "", none, none, none, none, ⟨⟨"", "", none, none⟩⟩⟩⟩⟩

/-- Witness for C5: with abc in the ignore list the xyz item survives the
filter. -/
theorem c5_suggestion_filter_witness :
    (itemXyz ∈ [itemAbc, itemXyz]) ∧ (suggestionId itemXyz ∉ ({"abc"} : Finset String)) ∧
    itemXyz ∈ filterSuggestions ({"abc"} : Finset String) [itemAbc, itemXyz] :=
  ⟨by decide, by decide,
    (c5_suggestion_filter ({"abc"} : Finset String) [itemAbc, itemXyz]).2.2 itemXyz
      (by decide) (by decide)⟩

/-- A suggestion item whose live kernel has id a. -/
def itemIdA : KernelSelectionItem :=
  ⟨⟨none, none, some ⟨"a", "", none, none, none, none, ⟨⟨"", "", none, none⟩⟩⟩⟩⟩

/-- Counterexample to C6: when the ignore list already contains the id a and
the kernel with id a and client id b is added then removed, the pre-existing
entry a is deleted too, so the filter output changes: the item with id a was
hidden before and is visible after. -/
theorem c6_counterexample :
    filterSuggestions
        (removeKernelFromIgnoreList
          (addKernelToIgnoreList ({"a"} : Finset String) ⟨"a", "b"⟩) ⟨"a", "b"⟩)
        [itemIdA]
      ≠ filterSuggestions ({"a"} : Finset String) [itemIdA] := by
  decide

/-- C6 amended: adding a kernel twice equals adding it once; removing a
kernel whose id and client id are both absent is a no-op; and add followed by
remove restores the pre-state filter output provided the kernel's id and
client id were not already in the ignore list beforehand. -/
theorem c6_amended :
    ∀ (s : Finset String) (k : KernelConnection) (l : List KernelSelectionItem),
      (addKernelToIgnoreList (addKernelToIgnoreList s k) k = addKernelToIgnoreList s k) ∧
      (k.id ∉ s → k.clientId ∉ s → removeKernelFromIgnoreList s k = s) ∧
      (k.id ∉ s → k.clientId ∉ s →
        filterSuggestions (removeKernelFromIgnoreList (addKernelToIgnoreList s k) k) l
          = filterSuggestions s l) := by
  intro s k l
  refine ⟨?_, ?_, ?_⟩
  · unfold addKernelToIgnoreList
    ext a
    simp only [Finset.mem_insert]
    tauto
  · intro h1 h2
    unfold removeKernelFromIgnoreList
    ext a
    simp only [Finset.mem_erase]
    constructor
    · rintro ⟨-, -, ha⟩
      exact ha
    · intro ha
      refine ⟨?_, ?_, ha⟩
      · rintro rfl
        exact h2 ha
      · rintro rfl
        exact h1 ha
  · intro h1 h2
    have hstate : removeKernelFromIgnoreList (addKernelToIgnoreList s k) k = s := by
      unfold removeKernelFromIgnoreList addKernelToIgnoreList
      ext a
      simp only [Finset.mem_erase, Finset.mem_insert]
      constructor
      · rintro ⟨hc, hi, h | h | h⟩
        · exact absurd h hc
        · exact absurd h hi
        · exact h
      · intro ha
        refine ⟨?_, ?_, Or.inr (Or.inr ha)⟩
        · rintro rfl
          exact h2 ha
        · rintro rfl
          exact h1 ha
    rw [hstate]

/-- Witness for the amended C6: add then remove of a fresh kernel leaves the
filter output of the empty ignore list unchanged. -/
theorem c6_amended_witness :
    ("x" ∉ (∅ : Finset String)) ∧ ("y" ∉ (∅ : Finset String)) ∧
    filterSuggestions
        (removeKernelFromIgnoreList (addKernelToIgnoreList (∅ : Finset String) ⟨"x", "y"⟩)
          ⟨"x", "y"⟩) [itemIdA]
      = filterSuggestions (∅ : Finset String) [itemIdA] :=
  ⟨by decide, by decide,
    (c6_amended (∅ : Finset String) ⟨"x", "y"⟩ [itemIdA]).2.2 (by decide) (by decide)⟩

/-- C7: useInterpreterAsKernel never calls registerKernel and returns the
matching spec with the interpreter when dependencies are installed and a
matching spec exists; it calls registerKernel exactly once when dependencies
are missing or no matching spec exists; and a registration failure
propagates to the caller unchanged. -/
theorem c7_register_discipline :
    ∀ (deps : Bool) (ms : Option IJupyterKernelSpec)
      (rr : Except String IJupyterKernelSpec) (interp : PythonInterpreter),
      (∀ ks, deps = true → ms = some ks →
        useInterpreterAsKernel deps ms rr interp =
          (Except.ok
            { kernelSpec := some ks, interpreter := some interp, kernelModel := none },
            0)) ∧
      ((deps = false ∨ ms = none) → (useInterpreterAsKernel deps ms rr interp).2 = 1) ∧
      (∀ e, (deps = false ∨ ms = none) → rr = Except.error e →
        (useInterpreterAsKernel deps ms rr interp).1 = Except.error e) := by
  intro deps ms rr interp
  refine ⟨?_, ?_, ?_⟩
  · rintro ks rfl rfl
    rfl
  · rintro (rfl | rfl)
    · cases rr <;> rfl
    · cases deps <;> cases rr <;> rfl
  · rintro e (rfl | rfl) rfl
    · rfl
    · cases deps <;> rfl

/-- Witness for C7: with dependencies missing, a failing registration
surfaces its error to the caller. -/
theorem c7_register_discipline_witness :
    (false = false ∨ (none : Option IJupyterKernelSpec) = none) ∧
    ((Except.error "boom" : Except String IJupyterKernelSpec) = Except.error "boom") ∧
    (useInterpreterAsKernel false none (Except.error "boom")
        ⟨"/usr/bin/python3", some ⟨3⟩, none⟩).1 = Except.error "boom" :=
  ⟨Or.inl rfl, rfl,
    (c7_register_discipline false none (Except.error "boom")
        ⟨"/usr/bin/python3", some ⟨3⟩, none⟩).2.2 "boom" (Or.inl rfl) rfl⟩

/-- C8: when the quick pick yields no selection, selectKernel returns the
entirely empty selection result: no kernel spec, no interpreter and no
kernel model. -/
theorem c8_empty_selection :
    ∀ (type : ConnType) (uiak : PythonInterpreter → KernelSpecInterpreter)
      (defaultSpec : Option String → IJupyterKernelSpec)
      (findMatchModel : LiveKernelModel → Option PythonInterpreter)
      (findMatchSpec : IJupyterKernelSpec → Option PythonInterpreter),
      selectKernel type none uiak defaultSpec findMatchModel findMatchSpec =
        { kernelSpec := none, interpreter := none, kernelModel := none } :=
  fun _ _ _ _ _ => rfl
